import Mathlib

/-!
Shallow embedding of the UniFi Access Orchestrator's group resolver and
rules engine (src/src/resolver.js: class `Resolver`, class `RulesEngine`).

JavaScript values are modelled as follows: a string-or-nullish value is
`Option String` (with `none` standing for both `null` and `undefined`),
machine numbers that carry reason codes are `Int`, plain objects used as
maps are association lists `List (String × String)`, and arrays are
`List`.  JS truthiness of a string value (`!s`, `s || t`) is captured by
`tstr` and `jsOr`.  The external UniFi client (user-name cache, group
cache, door dispatch) is an explicit environment `Env`; `async` dispatch
via `Promise.allSettled` is modelled by recording each door's outcome
independently, and a `setTimeout`-delayed dispatch is modelled by its
eventual effect (the state the counters and dispatches reach once the
timer fires), since no claim concerns real time.  Values the handlers
bind once in a `let` (the resolve result, the doors to unlock, the reason
string) are factored into named definitions; being pure, recomputing them
is identical to binding them.
-/

namespace Orchestrator

/-- JS truthiness of a string-or-nullish value: `undefined`, `null` and
`""` are falsy, every other string is truthy. -/
def tstr : Option String → Bool
  | none => false
  | some s => s != ""

/-- JS `a || b` on string-or-nullish values: `b` when `a` is falsy. -/
def jsOr (a b : Option String) : Option String :=
  match a with
  | some s => if s = "" then b else some s
  | none => b

/-- JS template-literal rendering of a possibly-nullish string
(`undefined`/`null` both print; the model conflates them). -/
def jsShow (o : Option String) : String := o.getD "undefined"

/-- JS `String.prototype.includes`: `needle` occurs as a contiguous
substring of `hay`. -/
def strContains (hay needle : String) : Bool :=
  (List.range (hay.data.length + 1)).any fun i =>
    needle.data.isPrefixOf (hay.data.drop i)

/-- JS `String.prototype.toLowerCase`, character by character. -/
def jsToLower (s : String) : String := ⟨s.data.map Char.toLower⟩

/-- JS `String.prototype.trim`: strip leading and trailing whitespace. -/
def jsTrim (s : String) : String :=
  ⟨((s.data.dropWhile Char.isWhitespace).reverse.dropWhile
      Char.isWhitespace).reverse⟩

/-! ## Raw payload shapes (the three recognized forms of `normalizeEvent`) -/

structure RawLocation where
  id : Option String := none
  name : Option String := none
  location_type : Option String := none
  deriving DecidableEq

structure RawDevice where
  name : Option String := none
  «alias» : Option String := none
  device_type : Option String := none
  id : Option String := none
  deriving DecidableEq

structure RawActor where
  id : Option String := none
  name : Option String := none
  type : Option String := none
  deriving DecidableEq

structure RawObject where
  policy_id : Option String := none
  policy_name : Option String := none
  reason_code : Option Int := none
  host_device_mac : Option String := none
  extra : Option (List (String × String)) := none
  deriving DecidableEq

/-- `_source.event` of a WebSocket `access.logs.add` wrapper. -/
structure WsEvent where
  type : Option String := none
  result : Option String := none
  deriving DecidableEq

structure WsActor where
  display_name : Option String := none
  deriving DecidableEq

structure WsTarget where
  type : Option String := none
  display_name : Option String := none
  deriving DecidableEq

/-- The nested `_source` carried by WebSocket `access.logs.add` events. -/
structure WsSource where
  event : Option WsEvent := none
  actor : Option WsActor := none
  target : Option (List WsTarget) := none
  deriving DecidableEq

structure RawData where
  location : Option RawLocation := none
  device : Option RawDevice := none
  actor : Option RawActor := none
  object : Option RawObject := none
  extra : Option (List (String × String)) := none
  source : Option WsSource := none
  deriving DecidableEq

structure AlarmSource where
  device : Option String := none
  deriving DecidableEq

structure AlarmTrigger where
  key : Option String := none
  deriving DecidableEq

structure RawAlarm where
  name : Option String := none
  sources : Option (List AlarmSource) := none
  triggers : Option (List AlarmTrigger) := none
  deriving DecidableEq

/-- A raw incoming payload, covering the fields read by `normalizeEvent`:
the API-webhook shape (`event` + `data`), the Alarm Manager envelope
(`alarm`), and the flat fallback shape. -/
structure Raw where
  event : Option String := none
  data : Option RawData := none
  alarm : Option RawAlarm := none
  type : Option String := none
  event_type : Option String := none
  location : Option RawLocation := none
  door_name : Option String := none
  location_name : Option String := none
  device : Option RawDevice := none
  device_name : Option String := none
  actor : Option RawActor := none
  user_id : Option String := none
  user_name : Option String := none
  actor_name : Option String := none
  reason_code : Option Int := none
  extra : Option (List (String × String)) := none
  deriving DecidableEq

/-- A normalized event, restricted to the fields the engine's handlers
read downstream; every constructing path sets `type`. -/
structure NormalizedEvent where
  type : String
  locationName : Option String := none
  deviceName : Option String := none
  deviceId : Option String := none
  actorId : Option String := none
  actorName : Option String := none
  policyId : Option String := none
  policyName : Option String := none
  reasonCode : Option Int := none
  hostDeviceMac : Option String := none
  extra : Option (List (String × String)) := none
  source : Option WsSource := none
  triggers : List AlarmTrigger := []
  deriving DecidableEq

/-! ## Configuration and environment -/

/-- One rule record: `{ group, trigger, unlock, delay }` (the engine's
`_normalizeRules` output shape). -/
structure RuleEntry where
  group : String
  trigger : String
  unlock : List String := []
  delay : Nat := 0
  deriving DecidableEq

/-- The engine/resolver configuration after the constructors read
`config`: resolver strategy order and maps, normalized NFC/tap rules with
their default action, normalized doorbell rules with viewer map, default
action and trigger reason code, and the self-trigger marker. -/
structure Config where
  strategies : List String := ["api_group", "manual"]
  manual_overrides : List (String × String) := []
  policy_to_group : List (String × String) := []
  accessRules : List RuleEntry := []
  defaultUnlock : List String := []
  visitorRules : List RuleEntry := []
  doorbellDefaultUnlock : List String := []
  viewer_to_group : List (String × String) := []
  trigger_reason_code : Option Int := none
  marker_key : Option String := none
  marker_value : Option String := none

/-- Outcome of one `unifiClient.unlockDoorByName` dispatch, as
`Promise.allSettled` reports it: fulfilled with `{success:true, door}`,
fulfilled with `{success:false, error}`, or rejected. -/
inductive UnlockOutcome where
  | success (door : String)
  | failedResult (err : Option String)
  | rejected (err : Option String)
  deriving DecidableEq

def UnlockOutcome.isSuccess : UnlockOutcome → Bool
  | .success _ => true
  | _ => false

/-- The door of a successful dispatch (`result.value.door`). -/
def UnlockOutcome.successDoor : UnlockOutcome → Option String
  | .success d => some d
  | _ => none

/-- The external UniFi client: the user-name cache behind `getUserName`,
the group cache behind `getGroupForUser`, and the dispatch outcome of
unlocking each door by name. -/
structure Env where
  userNames : List (String × String) := []
  userGroups : List (String × String) := []
  outcome : String → UnlockOutcome := fun d => .success d

/-! ## Engine statistics -/

structure LastEvent where
  type : String
  location : Option String
  actor : String
  device : Option String
  deriving DecidableEq

structure LastUnlock where
  door : String
  reason : String
  deriving DecidableEq

/-- The engine's `stats` object (timestamps `time`/`started_at` are
real-clock values and are not modelled). -/
structure Stats where
  events_received : Nat := 0
  events_processed : Nat := 0
  events_skipped_self : Nat := 0
  events_skipped_location : Nat := 0
  events_skipped_no_action : Nat := 0
  unlocks_triggered : Nat := 0
  unlocks_failed : Nat := 0
  doorbell_events : Nat := 0
  last_event : Option LastEvent := none
  last_unlock : Option LastUnlock := none
  deriving DecidableEq

/-- The stats object as the engine constructor creates it. -/
def initStats : Stats := {}

/-! ## Resolver (`class Resolver`, src/src/resolver.js) -/

/-- The `object` section handed to `Resolver.resolve`. -/
structure WebhookObject where
  policy_id : Option String := none
  policy_name : Option String := none
  deriving DecidableEq

/-- The record `Resolver.resolve` returns. -/
structure ResolveResult where
  group : Option String
  strategy : Option String
  userName : Option String
  deriving DecidableEq

/-- One iteration body of the resolver's strategy `switch`: the group a
single named strategy yields (an unknown strategy only logs a warning and
yields nothing). -/
def runStrategy (cfg : Config) (env : Env) (userId : String)
    (obj : WebhookObject) (strategy : String) : Option String :=
  if strategy = "api_group" then
    env.userGroups.lookup userId
  else if strategy = "manual" then
    jsOr (cfg.manual_overrides.lookup userId) none
  else if strategy = "policy_name" then
    if tstr obj.policy_name then
      jsOr (cfg.policy_to_group.lookup (obj.policy_name.getD "")) none
    else none
  else none

/-- The resolver's `for (const strategy of this.strategies)` loop with its
early return on a truthy group. -/
def resolveGo (cfg : Config) (env : Env) (userId : String)
    (obj : WebhookObject) (userName : Option String) :
    List String → ResolveResult
  | [] => ⟨none, none, userName⟩
  | s :: rest =>
    let group := runStrategy cfg env userId obj s
    if tstr group then ⟨group, some s, userName⟩
    else resolveGo cfg env userId obj userName rest

/-- `Resolver.resolve(userId, webhookObject)`. -/
def resolve (cfg : Config) (env : Env) (userId : Option String)
    (obj : WebhookObject) : ResolveResult :=
  if !tstr userId then ⟨none, none, none⟩
  else
    let uid := userId.getD ""
    let userName := jsOr (env.userNames.lookup uid) none
    resolveGo cfg env uid obj userName cfg.strategies

/-! ## Event normalization (`RulesEngine.normalizeEvent`, `inferAlarmType`) -/

/-- The loop of `inferAlarmType` over the alarm's trigger records. -/
def inferAlarmGo : List AlarmTrigger → String
  | [] => "alarm_manager.unknown"
  | t :: rest =>
    let key := jsToLower (t.key.getD "")
    if strContains key "unlock" || strContains key "door" then
      "access.door.unlock"
    else if strContains key "doorbell" || strContains key "ring" then
      "access.doorbell.incoming"
    else inferAlarmGo rest

/-- `RulesEngine.inferAlarmType(raw)`: infer the event type from Alarm
Manager trigger keys. -/
def inferAlarmType (raw : Raw) : String :=
  inferAlarmGo ((raw.alarm >>= RawAlarm.triggers).getD [])

/-- The API-webhook branch of `normalizeEvent` (`raw.event && raw.data`). -/
def webhookEvent (raw : Raw) (d : RawData) : NormalizedEvent :=
  { type := raw.event.getD ""
    locationName := d.location >>= RawLocation.name
    deviceName := jsOr (d.device >>= RawDevice.name) (d.device >>= RawDevice.«alias»)
    deviceId := d.device >>= RawDevice.id
    actorId := jsOr (d.actor >>= RawActor.id) none
    actorName := jsOr (d.actor >>= RawActor.name) none
    policyId := d.object >>= RawObject.policy_id
    policyName := d.object >>= RawObject.policy_name
    reasonCode := d.object >>= RawObject.reason_code
    hostDeviceMac := d.object >>= RawObject.host_device_mac
    extra :=
      match d.object >>= RawObject.extra with
      | some e => some e
      | none => match d.extra with
        | some e => some e
        | none => none
    source := d.source }

/-- The Alarm Manager branch of `normalizeEvent` (`raw.alarm`). -/
def alarmEvent (raw : Raw) (a : RawAlarm) : NormalizedEvent :=
  { type := inferAlarmType raw
    locationName := jsOr a.name (some "unknown")
    deviceId := jsOr ((a.sources >>= List.head?) >>= AlarmSource.device) none
    triggers := a.triggers.getD [] }

/-- The flat fallback branch of `normalizeEvent`
(`raw.type || raw.event_type`). -/
def fallbackEvent (raw : Raw) : NormalizedEvent :=
  { type := (jsOr raw.type raw.event_type).getD ""
    locationName := jsOr (raw.location >>= RawLocation.name)
      (jsOr raw.door_name raw.location_name)
    deviceName := jsOr (raw.device >>= RawDevice.name) raw.device_name
    deviceId := raw.device >>= RawDevice.id
    actorId := jsOr (raw.actor >>= RawActor.id) raw.user_id
    actorName := jsOr (raw.actor >>= RawActor.name)
      (jsOr raw.user_name raw.actor_name)
    reasonCode := raw.reason_code
    extra := raw.extra }

/-- `RulesEngine.normalizeEvent(raw)`: one of the three recognized shapes,
or `null`. -/
def normalizeEvent (raw : Raw) : Option NormalizedEvent :=
  if tstr raw.event && raw.data.isSome then
    some (webhookEvent raw (raw.data.getD {}))
  else if raw.alarm.isSome then
    some (alarmEvent raw (raw.alarm.getD {}))
  else if tstr raw.type || tstr raw.event_type then
    some (fallbackEvent raw)
  else
    none

/-! ## Rules engine helpers -/

/-- `RulesEngine.locationMatches(eventLocation, configLocation)`: false on
a falsy side, else trimmed case-insensitive equality. -/
def locationMatches (eventLocation : Option String) (configLocation : String) :
    Bool :=
  match eventLocation with
  | none => false
  | some l =>
    if l = "" ∨ configLocation = "" then false
    else jsToLower (jsTrim l) == jsToLower (jsTrim configLocation)

/-- The filter predicate of the two rule-matching sites
(`rule.group === group && this.locationMatches(event.locationName,
rule.trigger)`). -/
def ruleMatches (group : Option String) (locationName : Option String)
    (rule : RuleEntry) : Bool :=
  (group == some rule.group) && locationMatches locationName rule.trigger

/-- `RulesEngine.isSelfTriggered(event)`. -/
def isSelfTriggered (cfg : Config) (event : NormalizedEvent) : Bool :=
  if !(tstr cfg.marker_key && tstr cfg.marker_value) then false
  else
    match event.extra with
    | none => false
    | some extra =>
      extra.lookup (cfg.marker_key.getD "") == some (cfg.marker_value.getD "")

/-- `new Set(...)` insertion-order deduplication, with the elements
already seen accumulated on the left. -/
def dedupSeen (seen : List String) : List String → List String
  | [] => []
  | a :: l =>
    if a ∈ seen then dedupSeen seen l
    else a :: dedupSeen (a :: seen) l

/-- `[...new Set(list)]`: duplicates removed, first occurrences kept. -/
def jsSetDedup (l : List String) : List String := dedupSeen [] l

/-- The per-result loop body of `executeUnlocks`: a fulfilled successful
dispatch bumps `unlocks_triggered` and rewrites `last_unlock`; a failed or
rejected one bumps `unlocks_failed`. -/
def applyOutcome (reason : String) (st : Stats) (o : UnlockOutcome) : Stats :=
  match o with
  | .success door =>
    { st with unlocks_triggered := st.unlocks_triggered + 1
              last_unlock := some ⟨door, reason⟩ }
  | _ => { st with unlocks_failed := st.unlocks_failed + 1 }

/-- `RulesEngine.executeUnlocks(doorNames, reason)`: every door is
dispatched (`Promise.allSettled` maps over all of them), then each
outcome is recorded independently.  Returns the new stats and the list of
doors a dispatch call was made for. -/
def executeUnlocks (env : Env) (st : Stats) (doorNames : List String)
    (reason : String) : Stats × List String :=
  ((doorNames.map env.outcome).foldl (applyOutcome reason) st, doorNames)

/-! ## NFC/tap handler (`RulesEngine.handleDoorUnlock`) -/

/-- The resolve call `handleDoorUnlock` makes:
`this.resolver.resolve(event.actorId, { policy_id, policy_name })`. -/
def accessResolve (cfg : Config) (env : Env) (event : NormalizedEvent) :
    ResolveResult :=
  resolve cfg env event.actorId
    { policy_id := event.policyId, policy_name := event.policyName }

/-- `matchingRules` of `handleDoorUnlock`: rules whose group equals the
resolved group and whose trigger matches the event location. -/
def matchingAccessRules (cfg : Config) (env : Env) (event : NormalizedEvent) :
    List RuleEntry :=
  cfg.accessRules.filter
    (ruleMatches (accessResolve cfg env event).group event.locationName)

/-- `doorsToUnlock` of `handleDoorUnlock`: the deduplicated union of the
matching rules' door lists, else the default action's list, else none. -/
def accessDoorsToUnlock (cfg : Config) (env : Env) (event : NormalizedEvent) :
    List String :=
  let matchingRules := matchingAccessRules cfg env event
  if matchingRules.length > 0 then
    jsSetDedup (matchingRules.map RuleEntry.unlock).flatten
  else if cfg.defaultUnlock.length > 0 then cfg.defaultUnlock
  else []

/-- `displayName` as the handlers build it:
`userName || event.actorName || event.actorId || 'unknown'`. -/
def displayNameOf (r : ResolveResult) (event : NormalizedEvent) : String :=
  (jsOr r.userName (jsOr event.actorName
    (jsOr event.actorId (some "unknown")))).getD "unknown"

/-- The unlock reason string `handleDoorUnlock` builds. -/
def accessReason (cfg : Config) (env : Env) (event : NormalizedEvent) :
    String :=
  "NFC/tap: " ++ displayNameOf (accessResolve cfg env event) event ++ " ("
    ++ (jsOr (accessResolve cfg env event).group (some "default")).getD "default"
    ++ ") at " ++ jsShow event.locationName

/-- `RulesEngine.handleDoorUnlock(event)`.  A rule `delay` defers the
dispatch via `setTimeout`; the model records the eventual effect. -/
def handleDoorUnlock (cfg : Config) (env : Env) (st : Stats)
    (event : NormalizedEvent) : Stats × List String :=
  if isSelfTriggered cfg event then
    ({ st with events_skipped_self := st.events_skipped_self + 1 }, [])
  else
    let doorsToUnlock := accessDoorsToUnlock cfg env event
    if doorsToUnlock.length = 0 then
      ({ st with events_skipped_no_action := st.events_skipped_no_action + 1 },
        [])
    else
      let p := executeUnlocks env st doorsToUnlock (accessReason cfg env event)
      ({ p.1 with events_processed := p.1.events_processed + 1 }, p.2)

/-! ## Doorbell handler (`RulesEngine.handleDoorbellCompleted`) -/

/-- The `trigger_reason_code` the doorbell handler acts on
(`this.doorbellRules.trigger_reason_code || 107`; JS `||` treats a
configured `0` as absent). -/
def effectiveTriggerCode (cfg : Config) : Int :=
  match cfg.trigger_reason_code with
  | some c => if c = 0 then 107 else c
  | none => 107

/-- Strategy 1 of the doorbell handler: the group resolved from the
answering actor (`if (event.actorId) ... if (resolved.group)`). -/
def doorbellActorGroup (cfg : Config) (env : Env) (event : NormalizedEvent) :
    Option String :=
  if tstr event.actorId then
    let resolved := resolve cfg env event.actorId {}
    if tstr resolved.group then resolved.group else none
  else none

/-- Strategy 2 of the doorbell handler: the viewer-device fallback
(`if (!group && event.deviceName) viewerToGroup[deviceName] || null`). -/
def doorbellDeviceGroup (cfg : Config) (env : Env) (event : NormalizedEvent) :
    Option String :=
  if doorbellActorGroup cfg env event = none ∧ tstr event.deviceName then
    jsOr (cfg.viewer_to_group.lookup (event.deviceName.getD "")) none
  else none

/-- The group the doorbell handler settles on. -/
def doorbellGroup (cfg : Config) (env : Env) (event : NormalizedEvent) :
    Option String :=
  match doorbellActorGroup cfg env event with
  | some g => some g
  | none => doorbellDeviceGroup cfg env event

/-- The `resolveMethod` log string of the doorbell handler. -/
def doorbellResolveMethod (cfg : Config) (env : Env)
    (event : NormalizedEvent) : Option String :=
  match doorbellActorGroup cfg env event with
  | some _ =>
    let resolved := resolve cfg env event.actorId {}
    some ("actor: " ++ (jsOr resolved.userName
      (jsOr event.actorName event.actorId)).getD "undefined"
      ++ " (" ++ jsShow resolved.strategy ++ ")")
  | none =>
    if doorbellDeviceGroup cfg env event ≠ none then
      some ("device: " ++ event.deviceName.getD "undefined")
    else none

/-- `doorsToUnlock` of `handleDoorbellCompleted`. -/
def doorbellDoorsToUnlock (cfg : Config) (env : Env)
    (event : NormalizedEvent) : List String :=
  let matchingRules := cfg.visitorRules.filter
    (ruleMatches (doorbellGroup cfg env event) event.locationName)
  if matchingRules.length > 0 then
    jsSetDedup (matchingRules.map RuleEntry.unlock).flatten
  else if cfg.doorbellDefaultUnlock.length > 0 then cfg.doorbellDefaultUnlock
  else []

/-- The unlock reason string `handleDoorbellCompleted` builds. -/
def doorbellReason (cfg : Config) (env : Env) (event : NormalizedEvent) :
    String :=
  "Doorbell: answered by "
    ++ (doorbellResolveMethod cfg env event).getD "unknown"
    ++ " at " ++ jsShow event.locationName

/-- `RulesEngine.handleDoorbellCompleted(event)`. -/
def handleDoorbellCompleted (cfg : Config) (env : Env) (st : Stats)
    (event : NormalizedEvent) : Stats × List String :=
  let st := { st with doorbell_events := st.doorbell_events + 1 }
  if event.reasonCode ≠ some (effectiveTriggerCode cfg) then (st, [])
  else
    let doorsToUnlock := doorbellDoorsToUnlock cfg env event
    if doorsToUnlock.length = 0 then
      ({ st with events_skipped_no_action := st.events_skipped_no_action + 1 },
        [])
    else
      let p := executeUnlocks env st doorsToUnlock
        (doorbellReason cfg env event)
      ({ p.1 with events_processed := p.1.events_processed + 1 }, p.2)

/-! ## WebSocket wrapper and main entry point -/

/-- The door location `handleWebSocketLog` extracts from the `_source`
target array (`target.find(t => t.type === 'door').display_name`). -/
def wsLocationName (source : WsSource) : Option String :=
  match source.target with
  | some targets =>
    match targets.find? (fun t => t.type == some "door") with
    | some doorTarget => doorTarget.display_name
    | none => none
  | none => none

/-- The re-normalized inner event `handleWebSocketLog` builds. -/
def wsNormalized (source : WsSource) (it : String) : NormalizedEvent :=
  { type := it
    locationName := wsLocationName source
    actorName := jsOr (source.actor >>= WsActor.display_name) none }

/-- `RulesEngine.handleWebSocketLog(event)`: unwrap the nested `_source`
of an `access.logs.add` wrapper and re-dispatch. -/
def handleWebSocketLog (cfg : Config) (env : Env) (st : Stats)
    (event : NormalizedEvent) : Stats × List String :=
  match event.source with
  | none => (st, [])
  | some source =>
    if !tstr (source.event >>= WsEvent.type) then (st, [])
    else
      let it := (source.event >>= WsEvent.type).getD ""
      if it = "access.door.unlock" then
        handleDoorUnlock cfg env st (wsNormalized source it)
      else if it = "access.doorbell.completed" then
        handleDoorbellCompleted cfg env st (wsNormalized source it)
      else (st, [])

/-- The `last_event` snapshot `handleEvent` records. -/
def mkLastEvent (event : NormalizedEvent) : LastEvent :=
  { type := event.type
    location := event.locationName
    actor := (jsOr event.actorName
      (jsOr event.actorId (some "unknown"))).getD "unknown"
    device := event.deviceName }

/-- `RulesEngine.handleEvent(rawPayload)`: bump `events_received`,
normalize, record `last_event`, dispatch by type.  Returns the new stats
and the doors unlock dispatch calls were made for. -/
def handleEvent (cfg : Config) (env : Env) (st : Stats) (raw : Raw) :
    Stats × List String :=
  let st := { st with events_received := st.events_received + 1 }
  match normalizeEvent raw with
  | none => (st, [])
  | some event =>
    let st := { st with last_event := some (mkLastEvent event) }
    if event.type = "access.door.unlock" then
      handleDoorUnlock cfg env st event
    else if event.type = "access.doorbell.completed" then
      handleDoorbellCompleted cfg env st event
    else if event.type = "access.doorbell.incoming" then
      ({ st with doorbell_events := st.doorbell_events + 1 }, [])
    else if event.type = "access.logs.add" then
      handleWebSocketLog cfg env st event
    else (st, [])

/-- A sequence of `handleEvent` calls, keeping the stats. -/
def runEvents (cfg : Config) (env : Env) (st : Stats) (raws : List Raw) :
    Stats :=
  raws.foldl (fun s r => (handleEvent cfg env s r).1) st

/-! ## Spec-side definitions (refinement comparisons)

These definitions follow the SPEC's words, not the code; each is compared
against the corresponding code definition above. -/

/-- Rule matching as the spec's claim words it: exact, case-insensitive,
whitespace-trimmed string equality on BOTH the group name and the
location name. -/
def ruleMatchesClaimed (group : Option String) (locationName : Option String)
    (rule : RuleEntry) : Bool :=
  match group, locationName with
  | some g, some l =>
    (jsToLower (jsTrim g) == jsToLower (jsTrim rule.group)) &&
    (jsToLower (jsTrim l) == jsToLower (jsTrim rule.trigger))
  | _, _ => false

/-- Rule matching as the code actually behaves (the amended claim): the
resolved group must equal the rule's group EXACTLY (case- and
whitespace-sensitively), while the location comparison is trimmed,
case-insensitive equality with both sides non-empty. -/
def ruleMatchesAmended (group : Option String) (locationName : Option String)
    (rule : RuleEntry) : Bool :=
  match group, locationName with
  | some g, some l =>
    (g == rule.group) && (l != "") && (rule.trigger != "") &&
    (jsToLower (jsTrim l) == jsToLower (jsTrim rule.trigger))
  | _, _ => false

/-- `Resolver.resolve` as the spec words it: an absent/empty `userId`
short-circuits to "no group" without consulting any strategy; otherwise
the FIRST strategy in the configured order that yields a (truthy) group
determines the returned group/strategy pair, and the display name is
looked up independently of whether a group was found. -/
def resolveSpec (cfg : Config) (env : Env) (userId : Option String)
    (obj : WebhookObject) : ResolveResult :=
  if !tstr userId then ⟨none, none, none⟩
  else
    let uid := userId.getD ""
    let userName := jsOr (env.userNames.lookup uid) none
    match cfg.strategies.find? (fun s => tstr (runStrategy cfg env uid obj s)) with
    | some s => ⟨runStrategy cfg env uid obj s, some s, userName⟩
    | none => ⟨none, none, userName⟩

/-! ## Stats-order predicates -/

/-- Pointwise `≤` on every EngineStats counter. -/
def countersLE (a b : Stats) : Prop :=
  a.events_received ≤ b.events_received ∧
  a.events_processed ≤ b.events_processed ∧
  a.events_skipped_self ≤ b.events_skipped_self ∧
  a.events_skipped_location ≤ b.events_skipped_location ∧
  a.events_skipped_no_action ≤ b.events_skipped_no_action ∧
  a.unlocks_triggered ≤ b.unlocks_triggered ∧
  a.unlocks_failed ≤ b.unlocks_failed ∧
  a.doorbell_events ≤ b.doorbell_events

/-- What every sub-handler guarantees about the stats: `events_received`
and `events_skipped_location` are untouched, and every counter is
monotone. -/
def handlerOK (a b : Stats) : Prop :=
  b.events_received = a.events_received ∧
  b.events_skipped_location = a.events_skipped_location ∧
  countersLE a b

/-! ## Concrete fixtures used by the witness theorems -/

/-- A dispatch environment where exactly door "B" fails. -/
def envOneFailure : Env :=
  { outcome := fun d =>
      if d = "B" then .failedResult (some "boom") else .success d }

/-- A configuration carrying the standard self-trigger marker. -/
def cfgMarker : Config :=
  { marker_key := some "source", marker_value := some "middleware" }

/-- A flat-shape door-unlock payload stamped with the marker. -/
def rawMarked : Raw :=
  { type := some "access.door.unlock"
    extra := some [("source", "middleware")] }

/-- The normalization of `rawMarked`. -/
def evMarked : NormalizedEvent :=
  { type := "access.door.unlock"
    extra := some [("source", "middleware")] }

/-- A two-rule NFC/tap configuration sharing one (group, trigger) pair. -/
def ruleElevator : RuleEntry :=
  { group := "tenant", trigger := "Main Entrance"
    unlock := ["Elevator", "Lobby"] }

def ruleRoof : RuleEntry :=
  { group := "tenant", trigger := "Main Entrance", unlock := ["Roof"] }

/-- An environment resolving user "u1" to group "tenant". -/
def envTenant : Env := { userGroups := [("u1", "tenant")] }

/-- A door-unlock event for user "u1" at the Main Entrance. -/
def evTenantTap : NormalizedEvent :=
  { type := "access.door.unlock"
    actorId := some "u1"
    locationName := some "Main Entrance" }

/-! ## Helper lemmas -/

lemma tstr_getD_ne {o : Option String} (h : tstr o = true) : o.getD "" ≠ "" := by
  cases o with
  | none => simp [tstr] at h
  | some s => simpa [tstr] using h

lemma tstr_jsOr {a b : Option String} (h : (tstr a || tstr b) = true) :
    tstr (jsOr a b) = true := by
  cases a with
  | none => simpa [jsOr, tstr] using h
  | some s =>
    by_cases hs : s = ""
    · simp [tstr, hs] at h
      simpa [jsOr, hs, tstr] using h
    · simp [jsOr, hs, tstr]

lemma inferAlarmGo_ne_empty (l : List AlarmTrigger) : inferAlarmGo l ≠ "" := by
  induction l with
  | nil => simp [inferAlarmGo]
  | cons t rest ih =>
    simp only [inferAlarmGo]
    split
    · simp
    · split
      · simp
      · exact ih

lemma resolveGo_eq_find (cfg : Config) (env : Env) (uid : String)
    (obj : WebhookObject) (userName : Option String) (l : List String) :
    resolveGo cfg env uid obj userName l =
      match l.find? (fun s => tstr (runStrategy cfg env uid obj s)) with
      | some s => ⟨runStrategy cfg env uid obj s, some s, userName⟩
      | none => ⟨none, none, userName⟩ := by
  induction l with
  | nil => rfl
  | cons s rest ih =>
    by_cases h : tstr (runStrategy cfg env uid obj s) = true
    · simp [resolveGo, List.find?, h]
    · simp only [resolveGo]
      rw [if_neg (by simpa using h)]
      simp only [List.find?, Bool.not_eq_true] at h ⊢
      rw [h]
      exact ih

lemma handlerOK_refl (a : Stats) : handlerOK a a := by
  simp [handlerOK, countersLE]

lemma handlerOK_trans {a b c : Stats} (h1 : handlerOK a b)
    (h2 : handlerOK b c) : handlerOK a c := by
  simp only [handlerOK, countersLE] at *
  omega

lemma applyOutcome_ok (reason : String) (st : Stats) (o : UnlockOutcome) :
    handlerOK st (applyOutcome reason st o) := by
  cases o <;> simp [applyOutcome, handlerOK, countersLE]

lemma foldl_applyOutcome_ok (reason : String) :
    ∀ (os : List UnlockOutcome) (st : Stats),
      handlerOK st (os.foldl (applyOutcome reason) st) := by
  intro os
  induction os with
  | nil => intro st; exact handlerOK_refl st
  | cons o rest ih =>
    intro st
    simp only [List.foldl]
    exact handlerOK_trans (applyOutcome_ok reason st o) (ih _)

lemma executeUnlocks_ok (env : Env) (st : Stats) (doors : List String)
    (reason : String) : handlerOK st (executeUnlocks env st doors reason).1 :=
  foldl_applyOutcome_ok reason _ st

lemma handlerOK_bump_skipped_self (st : Stats) :
    handlerOK st { st with events_skipped_self := st.events_skipped_self + 1 } := by
  simp [handlerOK, countersLE]

lemma handlerOK_bump_no_action (st : Stats) :
    handlerOK st
      { st with events_skipped_no_action := st.events_skipped_no_action + 1 } := by
  simp [handlerOK, countersLE]

lemma handlerOK_bump_doorbell (st : Stats) :
    handlerOK st { st with doorbell_events := st.doorbell_events + 1 } := by
  simp [handlerOK, countersLE]

lemma handlerOK_bump_processed {a b : Stats} (h : handlerOK a b) :
    handlerOK a { b with events_processed := b.events_processed + 1 } := by
  simp only [handlerOK, countersLE] at *
  omega

lemma handleDoorUnlock_ok (cfg : Config) (env : Env) (st : Stats)
    (e : NormalizedEvent) : handlerOK st (handleDoorUnlock cfg env st e).1 := by
  unfold handleDoorUnlock
  split
  · exact handlerOK_bump_skipped_self st
  · dsimp only
    split
    · exact handlerOK_bump_no_action st
    · exact handlerOK_bump_processed (executeUnlocks_ok env st _ _)

lemma handleDoorbellCompleted_ok (cfg : Config) (env : Env) (st : Stats)
    (e : NormalizedEvent) :
    handlerOK st (handleDoorbellCompleted cfg env st e).1 := by
  unfold handleDoorbellCompleted
  have hstep := handlerOK_bump_doorbell st
  dsimp only
  split
  · exact hstep
  · split
    · exact handlerOK_trans hstep (handlerOK_bump_no_action _)
    · exact handlerOK_trans hstep
        (handlerOK_bump_processed (executeUnlocks_ok env _ _ _))

lemma handleWebSocketLog_ok (cfg : Config) (env : Env) (st : Stats)
    (e : NormalizedEvent) : handlerOK st (handleWebSocketLog cfg env st e).1 := by
  unfold handleWebSocketLog
  split
  · exact handlerOK_refl st
  · split
    · exact handlerOK_refl st
    · dsimp only
      split
      · exact handleDoorUnlock_ok cfg env st _
      · split
        · exact handleDoorbellCompleted_ok cfg env st _
        · exact handlerOK_refl st

lemma handleEvent_ok (cfg : Config) (env : Env) (st : Stats) (raw : Raw) :
    (handleEvent cfg env st raw).1.events_received = st.events_received + 1 ∧
    (handleEvent cfg env st raw).1.events_skipped_location =
      st.events_skipped_location ∧
    countersLE st (handleEvent cfg env st raw).1 := by
  unfold handleEvent
  cases hn : normalizeEvent raw with
  | none => simp [countersLE]
  | some e =>
    simp only
    have glue : ∀ b : Stats,
        handlerOK
          { st with
              events_received := st.events_received + 1
              last_event := some (mkLastEvent e) } b →
        b.events_received = st.events_received + 1 ∧
        b.events_skipped_location = st.events_skipped_location ∧
        countersLE st b := by
      intro b hb
      simp only [handlerOK, countersLE] at hb ⊢
      omega
    split
    · exact glue _ (handleDoorUnlock_ok cfg env _ e)
    · split
      · exact glue _ (handleDoorbellCompleted_ok cfg env _ e)
      · split
        · exact glue _ (handlerOK_bump_doorbell _)
        · split
          · exact glue _ (handleWebSocketLog_ok cfg env _ e)
          · exact glue _ (handlerOK_refl _)

lemma runEvents_ok (cfg : Config) (env : Env) :
    ∀ (raws : List Raw) (st : Stats),
      (runEvents cfg env st raws).events_received =
        st.events_received + raws.length ∧
      (runEvents cfg env st raws).events_skipped_location =
        st.events_skipped_location ∧
      countersLE st (runEvents cfg env st raws) := by
  intro raws
  induction raws with
  | nil => intro st; simp [runEvents, countersLE]
  | cons r rest ih =>
    intro st
    have h1 := handleEvent_ok cfg env st r
    have h2 := ih (handleEvent cfg env st r).1
    simp only [runEvents, List.foldl] at h2 ⊢
    simp only [countersLE, List.length_cons] at *
    omega

lemma getLast?_cons_elim {α : Type} (a : α) (l : List α) :
    (a :: l).getLast? = (l.getLast?).elim (some a) some := by
  induction l generalizing a with
  | nil => rfl
  | cons b m ih =>
    rw [List.getLast?_cons_cons, ih b]
    cases h : m.getLast? <;> simp

lemma foldl_applyOutcome_counts (reason : String) :
    ∀ (os : List UnlockOutcome) (st : Stats),
      (os.foldl (applyOutcome reason) st).unlocks_triggered =
        st.unlocks_triggered + os.countP UnlockOutcome.isSuccess ∧
      (os.foldl (applyOutcome reason) st).unlocks_failed =
        st.unlocks_failed + os.countP (fun o => !o.isSuccess) ∧
      (os.foldl (applyOutcome reason) st).last_unlock =
        ((os.filterMap UnlockOutcome.successDoor).getLast?).elim
          st.last_unlock (fun d => some ⟨d, reason⟩) := by
  intro os
  induction os with
  | nil => intro st; simp
  | cons o rest ih =>
    intro st
    obtain ⟨ih1, ih2, ih3⟩ := ih (applyOutcome reason st o)
    simp only [List.foldl]
    cases o with
    | success d =>
      refine ⟨?_, ?_, ?_⟩
      · rw [ih1]
        simp [applyOutcome, UnlockOutcome.isSuccess, List.countP_cons]
        try omega
      · rw [ih2]
        simp [applyOutcome, UnlockOutcome.isSuccess, List.countP_cons]
        try omega
      · have hfm : (UnlockOutcome.success d :: rest).filterMap
            UnlockOutcome.successDoor =
            d :: rest.filterMap UnlockOutcome.successDoor := by
          simp [UnlockOutcome.successDoor]
        rw [ih3, hfm, getLast?_cons_elim]
        cases h : (rest.filterMap UnlockOutcome.successDoor).getLast? <;>
          simp [h, applyOutcome]
    | failedResult err =>
      refine ⟨?_, ?_, ?_⟩
      · rw [ih1]
        simp [applyOutcome, UnlockOutcome.isSuccess, List.countP_cons]
        try omega
      · rw [ih2]
        simp [applyOutcome, UnlockOutcome.isSuccess, List.countP_cons]
        try omega
      · have hfm : (UnlockOutcome.failedResult err :: rest).filterMap
            UnlockOutcome.successDoor =
            rest.filterMap UnlockOutcome.successDoor := by
          simp [UnlockOutcome.successDoor]
        rw [ih3, hfm]
        simp [applyOutcome]
    | rejected err =>
      refine ⟨?_, ?_, ?_⟩
      · rw [ih1]
        simp [applyOutcome, UnlockOutcome.isSuccess, List.countP_cons]
        try omega
      · rw [ih2]
        simp [applyOutcome, UnlockOutcome.isSuccess, List.countP_cons]
        try omega
      · have hfm : (UnlockOutcome.rejected err :: rest).filterMap
            UnlockOutcome.successDoor =
            rest.filterMap UnlockOutcome.successDoor := by
          simp [UnlockOutcome.successDoor]
        rw [ih3, hfm]
        simp [applyOutcome]

lemma mem_dedupSeen : ∀ (l seen : List String) (a : String),
    a ∈ dedupSeen seen l ↔ a ∈ l ∧ a ∉ seen := by
  intro l
  induction l with
  | nil => intro seen a; simp [dedupSeen]
  | cons b m ih =>
    intro seen a
    simp only [dedupSeen]
    by_cases hb : b ∈ seen
    · rw [if_pos hb, ih, List.mem_cons]
      constructor
      · rintro ⟨h1, h2⟩; exact ⟨Or.inr h1, h2⟩
      · rintro ⟨h1 | h1, h2⟩
        · subst h1; exact absurd hb h2
        · exact ⟨h1, h2⟩
    · rw [if_neg hb]
      simp only [List.mem_cons, ih]
      constructor
      · rintro (rfl | ⟨h1, h2⟩)
        · exact ⟨Or.inl rfl, hb⟩
        · simp only [List.mem_cons, not_or] at h2
          exact ⟨Or.inr h1, h2.2⟩
      · rintro ⟨h1 | h1, h2⟩
        · exact Or.inl h1
        · by_cases hab : a = b
          · exact Or.inl hab
          · refine Or.inr ⟨h1, ?_⟩
            simp only [List.mem_cons, not_or]
            exact ⟨hab, h2⟩

lemma nodup_dedupSeen : ∀ (l seen : List String), (dedupSeen seen l).Nodup := by
  intro l
  induction l with
  | nil => intro seen; simp [dedupSeen]
  | cons b m ih =>
    intro seen
    simp only [dedupSeen]
    split
    · exact ih seen
    · refine List.nodup_cons.mpr ⟨?_, ih (b :: seen)⟩
      intro hmem
      rw [mem_dedupSeen] at hmem
      exact hmem.2 (List.mem_cons_self b seen)

lemma mem_jsSetDedup (l : List String) (a : String) :
    a ∈ jsSetDedup l ↔ a ∈ l := by
  simp [jsSetDedup, mem_dedupSeen]

lemma nodup_jsSetDedup (l : List String) : (jsSetDedup l).Nodup :=
  nodup_dedupSeen l []

lemma toFinset_jsSetDedup (l : List String) :
    (jsSetDedup l).toFinset = l.toFinset := by
  ext a
  simp [List.mem_toFinset, mem_jsSetDedup]

lemma runStrategy_accessRules (cfg : Config) (rs : List RuleEntry) (env : Env)
    (uid : String) (obj : WebhookObject) (s : String) :
    runStrategy { cfg with accessRules := rs } env uid obj s =
      runStrategy cfg env uid obj s := rfl

lemma resolveGo_accessRules (cfg : Config) (rs : List RuleEntry) (env : Env)
    (uid : String) (obj : WebhookObject) (un : Option String) :
    ∀ l, resolveGo { cfg with accessRules := rs } env uid obj un l =
      resolveGo cfg env uid obj un l := by
  intro l
  induction l with
  | nil => rfl
  | cons s rest ih =>
    simp only [resolveGo, runStrategy_accessRules, ih]

lemma resolve_accessRules (cfg : Config) (rs : List RuleEntry) (env : Env)
    (userId : Option String) (obj : WebhookObject) :
    resolve { cfg with accessRules := rs } env userId obj =
      resolve cfg env userId obj := by
  unfold resolve
  simp only [resolveGo_accessRules]

lemma isSelfTriggered_accessRules (cfg : Config) (rs : List RuleEntry)
    (e : NormalizedEvent) :
    isSelfTriggered { cfg with accessRules := rs } e = isSelfTriggered cfg e :=
  rfl

lemma handleDoorUnlock_dispatches (cfg : Config) (env : Env) (st : Stats)
    (ev : NormalizedEvent) (h : isSelfTriggered cfg ev = false) :
    (handleDoorUnlock cfg env st ev).2 =
      if (accessDoorsToUnlock cfg env ev).length = 0 then []
      else accessDoorsToUnlock cfg env ev := by
  simp only [handleDoorUnlock, h, Bool.false_eq_true, if_false]
  split <;> simp [executeUnlocks]

/-! ## Claim theorems -/

/-- Claim C1, counterexample to the claim as stated: the claim says the
group comparison is case-insensitive and whitespace-trimmed, but the code
compares groups with plain `===`: a resolved group `"royal palm"` does
not match a rule whose group is `"Royal Palm"`, although the claimed
predicate says it does. -/
theorem claim_C1_counterexample :
    ruleMatchesClaimed (some "royal palm") (some "Lobby")
      { group := "Royal Palm", trigger := "Lobby", unlock := ["Elevator"] } = true ∧
    ruleMatches (some "royal palm") (some "Lobby")
      { group := "Royal Palm", trigger := "Lobby", unlock := ["Elevator"] } = false := by
  decide

/-- Claim C1 (amended): a rule matches a normalized event iff the
resolved group is non-null and equals the rule's group by EXACT string
equality (no trimming, case-sensitive), while the location comparison is
exact string equality after trimming and lowercasing with both sides
non-empty — no prefix, substring, or fuzzy matching on either side. -/
theorem claim_C1_matching :
    ∀ (group locationName : Option String) (rule : RuleEntry),
      ruleMatches group locationName rule =
        ruleMatchesAmended group locationName rule := by
  intro group locationName rule
  cases group with
  | none => cases locationName <;>
      simp [ruleMatches, ruleMatchesAmended, locationMatches]
  | some g =>
    cases locationName with
    | none => simp [ruleMatches, ruleMatchesAmended, locationMatches]
    | some l =>
      have hsome : (some g == some rule.group) = (g == rule.group) := rfl
      simp only [ruleMatches, ruleMatchesAmended, locationMatches, hsome]
      by_cases hl : l = ""
      · simp [hl]
      · by_cases ht : rule.trigger = ""
        · simp [hl, ht]
        · have hlb : (l != "") = true := by simpa using hl
          have htb : (rule.trigger != "") = true := by simpa using ht
          simp [hl, ht, hlb, htb, Bool.and_assoc]

/-- Claim C2 (code bug, evaluated at the failing input): a legacy alarm
payload whose trigger key is exactly `"doorbell"` is inferred as
`access.door.unlock`, because the `unlock`/`door` substring check runs
first and `"doorbell"` contains `"door"` — the spec says a doorbell/ring
key yields `doorbell.incoming`.  (A key containing `"ring"` alone does
reach the doorbell branch, and an unmatched key yields the distinct
unrecognized-alarm marker.) -/
theorem claim_C2_doorbell_key_misrouted :
    inferAlarmType
        { alarm := some
            { name := some "Front Door"
              triggers := some [{ key := some "doorbell" }] } } =
      "access.door.unlock" ∧
    strContains (jsToLower "doorbell") "doorbell" = true ∧
    inferAlarmType
        { alarm := some { triggers := some [{ key := some "RING" }] } } =
      "access.doorbell.incoming" ∧
    inferAlarmType
        { alarm := some { triggers := some [{ key := some "motion" }] } } =
      "alarm_manager.unknown" := by
  decide

/-- Claim C5: a doorbell-completion event whose reason code differs from
the configured trigger reason code (default 107) produces zero unlock
dispatch calls; contrapositively only the configured code can provoke
dispatch. -/
theorem claim_C5_doorbell_reason_gate :
    ∀ (cfg : Config) (env : Env) (st : Stats) (event : NormalizedEvent),
      event.reasonCode ≠ some (effectiveTriggerCode cfg) →
      (handleDoorbellCompleted cfg env st event).2 = [] := by
  intro cfg env st event h
  simp [handleDoorbellCompleted, h]

theorem claim_C5_witness :
    (handleDoorbellCompleted { doorbellDefaultUnlock := ["Front Door"] } {}
      initStats
      { type := "access.doorbell.completed"
        reasonCode := some 106 }).2 = [] :=
  claim_C5_doorbell_reason_gate _ _ _ _ (by decide)

/-- Claim C7: `normalizeEvent` is total — it yields either an event whose
`type` is set (non-empty) or `none`; no constructing path leaves `type`
unset. -/
theorem claim_C7_normalize_total :
    ∀ raw : Raw, ((normalizeEvent raw).all fun e => e.type != "") = true := by
  intro raw
  unfold normalizeEvent
  split
  · next h =>
    simp only [Option.all, webhookEvent, bne_iff_ne, ne_eq]
    exact tstr_getD_ne (Bool.and_elim_left h)
  · split
    · simp only [Option.all, alarmEvent, inferAlarmType, bne_iff_ne, ne_eq]
      exact inferAlarmGo_ne_empty _
    · split
      · next h =>
        simp only [Option.all, fallbackEvent, bne_iff_ne, ne_eq]
        exact tstr_getD_ne (tstr_jsOr h)
      · rfl

/-- Claim C8: `resolve` equals its specification — an absent or empty
`userId` short-circuits to all-null without consulting any strategy, and
otherwise the first strategy in the configured order yielding a group
determines the returned (group, strategy) pair, later strategies being
consulted only when every earlier one yields none. -/
theorem claim_C8_resolver_order :
    ∀ (cfg : Config) (env : Env) (userId : Option String) (obj : WebhookObject),
      resolve cfg env userId obj = resolveSpec cfg env userId obj := by
  intro cfg env userId obj
  unfold resolve resolveSpec
  by_cases h : tstr userId = true
  · simp only [h, Bool.not_true, Bool.false_eq_true, if_false]
    exact resolveGo_eq_find cfg env (userId.getD "") obj _ cfg.strategies
  · simp only [Bool.not_eq_true] at h
    simp [h]

/-- Claim C9: every `handleEvent` call bumps `events_received` by exactly
one — including for payloads that fail to normalize — and across any
sequence of calls no EngineStats counter ever decreases (received grows
by exactly the number of payloads). -/
theorem claim_C9_received_exact_and_monotone :
    ∀ (cfg : Config) (env : Env) (st : Stats) (raws : List Raw),
      (∀ raw : Raw, (handleEvent cfg env st raw).1.events_received =
        st.events_received + 1) ∧
      (runEvents cfg env st raws).events_received =
        st.events_received + raws.length ∧
      countersLE st (runEvents cfg env st raws) := by
  intro cfg env st raws
  exact ⟨fun raw => (handleEvent_ok cfg env st raw).1,
    (runEvents_ok cfg env raws st).1, (runEvents_ok cfg env raws st).2.2⟩

/-- Claim C10: `events_skipped_location` starts at zero and no engine
operation ever increments it — after any sequence of `handleEvent` calls
from the freshly constructed stats it is still zero. -/
theorem claim_C10_skipped_location_zero :
    ∀ (cfg : Config) (env : Env) (raws : List Raw),
      (runEvents cfg env initStats raws).events_skipped_location = 0 := by
  intro cfg env raws
  exact (runEvents_ok cfg env raws initStats).2.1

/-- Claim C6: in `executeUnlocks` every door of a non-empty target list
is dispatched (no failure aborts the rest), each success bumps
`unlocks_triggered` and rewrites the `last_unlock` snapshot, and each
failure (failed result or rejection) bumps `unlocks_failed` — the
counters grow by exactly the number of successes resp. failures. -/
theorem claim_C6_per_door_outcomes :
    ∀ (env : Env) (st : Stats) (doorNames : List String) (reason : String),
      doorNames ≠ [] →
      (executeUnlocks env st doorNames reason).2 = doorNames ∧
      (executeUnlocks env st doorNames reason).1.unlocks_triggered =
        st.unlocks_triggered +
          doorNames.countP (fun d => (env.outcome d).isSuccess) ∧
      (executeUnlocks env st doorNames reason).1.unlocks_failed =
        st.unlocks_failed +
          doorNames.countP (fun d => !(env.outcome d).isSuccess) ∧
      (executeUnlocks env st doorNames reason).1.last_unlock =
        ((doorNames.filterMap
            fun d => (env.outcome d).successDoor).getLast?).elim
          st.last_unlock (fun d => some ⟨d, reason⟩) := by
  intro env st doorNames reason _
  obtain ⟨h1, h2, h3⟩ :=
    foldl_applyOutcome_counts reason (doorNames.map env.outcome) st
  refine ⟨rfl, ?_, ?_, ?_⟩
  · simpa [executeUnlocks, List.countP_map, Function.comp] using h1
  · simpa [executeUnlocks, List.countP_map, Function.comp] using h2
  · simpa [executeUnlocks, List.filterMap_map, Function.comp] using h3

theorem claim_C6_witness :
    (executeUnlocks envOneFailure initStats ["A", "B", "C"] "r").2 =
      ["A", "B", "C"] ∧
    (executeUnlocks envOneFailure initStats ["A", "B", "C"] "r").1.unlocks_triggered = 2 ∧
    (executeUnlocks envOneFailure initStats ["A", "B", "C"] "r").1.unlocks_failed = 1 ∧
    (executeUnlocks envOneFailure initStats ["A", "B", "C"] "r").1.last_unlock =
      some { door := "C", reason := "r" } := by
  obtain ⟨h1, h2, h3, h4⟩ :=
    claim_C6_per_door_outcomes envOneFailure initStats ["A", "B", "C"] "r"
      (by decide)
  exact ⟨h1, h2.trans (by decide), h3.trans (by decide), h4.trans (by decide)⟩

/-- Claim C3: (1) a door-unlock event whose `extra` binds the configured
marker key exactly to the configured marker value makes `handleEvent`
perform zero unlock dispatch calls and increment only the self-skip
counter (besides `events_received` and the `last_event` snapshot, which
every normalized event updates) — the result does not depend on the
resolver environment at all, so the resolver is never consulted; (2) with
no marker key/value configured, the guard returns false for every
event. -/
theorem claim_C3_self_trigger :
    (∀ (cfg : Config) (env : Env) (st : Stats) (raw : Raw)
        (e : NormalizedEvent) (k v : String) (ex : List (String × String)),
        normalizeEvent raw = some e →
        e.type = "access.door.unlock" →
        cfg.marker_key = some k → k ≠ "" →
        cfg.marker_value = some v → v ≠ "" →
        e.extra = some ex →
        ex.lookup k = some v →
        handleEvent cfg env st raw =
          ({ st with
              events_received := st.events_received + 1
              events_skipped_self := st.events_skipped_self + 1
              last_event := some (mkLastEvent e) }, [])) ∧
    (∀ (cfg : Config) (e : NormalizedEvent),
        cfg.marker_key = none ∨ cfg.marker_key = some "" ∨
        cfg.marker_value = none ∨ cfg.marker_value = some "" →
        isSelfTriggered cfg e = false) := by
  constructor
  · intro cfg env st raw e k v ex hn htype hk hknz hv hvnz hex hlook
    have hkb : tstr (some k) = true := by simp [tstr, hknz]
    have hvb : tstr (some v) = true := by simp [tstr, hvnz]
    have hself : isSelfTriggered cfg e = true := by
      simp [isSelfTriggered, hk, hv, hkb, hvb, hex, hlook]
    simp only [handleEvent, hn, htype]
    simp only [handleDoorUnlock, hself, if_true]
    try rfl
  · intro cfg e h
    rcases h with h | h | h | h <;> simp [isSelfTriggered, h, tstr]

theorem claim_C3_witness :
    handleEvent cfgMarker {} initStats rawMarked =
      ({ initStats with
          events_received := initStats.events_received + 1
          events_skipped_self := initStats.events_skipped_self + 1
          last_event := some (mkLastEvent evMarked) }, []) ∧
    isSelfTriggered {} evMarked = false := by
  constructor
  · exact claim_C3_self_trigger.1 cfgMarker {} initStats rawMarked evMarked
      "source" "middleware" [("source", "middleware")] (by decide) rfl rfl
      (by decide) rfl (by decide) rfl (by decide)
  · exact claim_C3_self_trigger.2 {} evMarked (Or.inl rfl)

/-- Claim C4: two rule entries sharing a (group, trigger) pair — when an
event matches that pair — make `handleDoorUnlock` dispatch exactly the
union of the two entries' door lists with duplicates removed, and the
dispatched set is the same whichever order the two entries were declared
in. -/
theorem claim_C4_rule_union :
    ∀ (cfg : Config) (env : Env) (st : Stats) (ev : NormalizedEvent)
      (r1 r2 : RuleEntry),
      r1.group = r2.group →
      r1.trigger = r2.trigger →
      isSelfTriggered cfg ev = false →
      (resolve cfg env ev.actorId
        { policy_id := ev.policyId, policy_name := ev.policyName }).group =
        some r1.group →
      locationMatches ev.locationName r1.trigger = true →
      (handleDoorUnlock { cfg with accessRules := [r1, r2] } env st ev).2.Nodup ∧
      (handleDoorUnlock { cfg with accessRules := [r1, r2] } env st ev).2.toFinset =
        r1.unlock.toFinset ∪ r2.unlock.toFinset ∧
      (handleDoorUnlock { cfg with accessRules := [r2, r1] } env st ev).2.toFinset =
        (handleDoorUnlock { cfg with accessRules := [r1, r2] } env st ev).2.toFinset := by
  intro cfg env st ev r1 r2 hg ht hself hres hloc
  have hself1 : ∀ rs : List RuleEntry,
      isSelfTriggered { cfg with accessRules := rs } ev = false := fun rs =>
    (isSelfTriggered_accessRules cfg rs ev).trans hself
  have hres1 : ∀ rs : List RuleEntry,
      (accessResolve { cfg with accessRules := rs } env ev).group =
        some r1.group := by
    intro rs
    unfold accessResolve
    rw [resolve_accessRules]
    exact hres
  have hm1 : ∀ rs : List RuleEntry,
      ruleMatches (accessResolve { cfg with accessRules := rs } env ev).group
        ev.locationName r1 = true := by
    intro rs
    rw [hres1 rs]
    simp [ruleMatches, hloc]
  have hm2 : ∀ rs : List RuleEntry,
      ruleMatches (accessResolve { cfg with accessRules := rs } env ev).group
        ev.locationName r2 = true := by
    intro rs
    rw [hres1 rs]
    simp [ruleMatches, hg, ← ht, hloc]
  have hdoors : ∀ (a b : RuleEntry),
      ruleMatches (accessResolve { cfg with accessRules := [a, b] } env ev).group
        ev.locationName a = true →
      ruleMatches (accessResolve { cfg with accessRules := [a, b] } env ev).group
        ev.locationName b = true →
      accessDoorsToUnlock { cfg with accessRules := [a, b] } env ev =
        jsSetDedup (a.unlock ++ b.unlock) := by
    intro a b hma hmb
    unfold accessDoorsToUnlock matchingAccessRules
    simp [List.filter_cons, hma, hmb]
  have hd1 := hdoors r1 r2 (hm1 [r1, r2]) (hm2 [r1, r2])
  have hd2 := hdoors r2 r1 (hm2 [r2, r1]) (hm1 [r2, r1])
  have hdisp : ∀ (rs : List RuleEntry) (l : List String),
      accessDoorsToUnlock { cfg with accessRules := rs } env ev =
        jsSetDedup l →
      (handleDoorUnlock { cfg with accessRules := rs } env st ev).2.toFinset =
        l.toFinset ∧
      (handleDoorUnlock { cfg with accessRules := rs } env st ev).2.Nodup := by
    intro rs l hal
    rw [handleDoorUnlock_dispatches _ env st ev (hself1 rs), hal]
    split
    · next hz =>
      have : jsSetDedup l = [] := List.length_eq_zero.mp hz
      constructor
      · rw [← this, toFinset_jsSetDedup]
      · exact List.nodup_nil
    · exact ⟨toFinset_jsSetDedup l, nodup_jsSetDedup l⟩
  obtain ⟨hf1, hn1⟩ := hdisp [r1, r2] (r1.unlock ++ r2.unlock) hd1
  obtain ⟨hf2, _⟩ := hdisp [r2, r1] (r2.unlock ++ r1.unlock) hd2
  refine ⟨hn1, ?_, ?_⟩
  · rw [hf1, List.toFinset_append]
  · rw [hf1, hf2, List.toFinset_append, List.toFinset_append,
      Finset.union_comm]

theorem claim_C4_witness :
    (handleDoorUnlock
      { strategies := ["api_group"], accessRules := [ruleElevator, ruleRoof] }
      envTenant initStats evTenantTap).2.Nodup ∧
    (handleDoorUnlock
      { strategies := ["api_group"], accessRules := [ruleElevator, ruleRoof] }
      envTenant initStats evTenantTap).2.toFinset =
      ruleElevator.unlock.toFinset ∪ ruleRoof.unlock.toFinset ∧
    (handleDoorUnlock
      { strategies := ["api_group"], accessRules := [ruleRoof, ruleElevator] }
      envTenant initStats evTenantTap).2.toFinset =
      (handleDoorUnlock
        { strategies := ["api_group"], accessRules := [ruleElevator, ruleRoof] }
        envTenant initStats evTenantTap).2.toFinset :=
  claim_C4_rule_union { strategies := ["api_group"] } envTenant initStats
    evTenantTap ruleElevator ruleRoof rfl rfl (by decide) (by decide) (by decide)

end Orchestrator
